import Mathlib

/-!
Shallow embedding of the wasender campaign controller and log recorder
(source: `types.ts` type declarations plus the `App` component logic).

Modelling choices:
- React `useState`/`useRef` cells become fields of one `AppComponent` record;
  each handler becomes a function `AppComponent → ... → AppComponent`,
  with `setState` modelled as an immediate field update (the single-threaded
  sequential semantics of the event loop).
- `setTimeout` is modelled by a multiset (list) of pending `Timer`s carrying a
  fresh numeric id, the callback description (`TimerKind`) and the requested
  delay; `clearTimeout id` removes the timer with that id from the pending
  list; the refs `timerRef` / `actionTimerRef` hold `Option Nat` ids (browser
  timeout handles are positive integers, so ids start at 1 and JS truthiness
  of a handle coincides with `Option.isSome`).  The event loop firing a
  pending timer is an `Op.fire id` step: the timer is removed from the pending
  list and its callback body runs; firing an id that is not pending is a
  no-op, which is exactly the `clearTimeout` guarantee that a cancelled
  callback never executes.
- `new Date().toLocaleTimeString()` is an external input: every operation that
  logs takes the timestamp as a `String` argument.
- In `startSendAction`, the randomly chosen `monitorMsg` is computed by the
  source but never used in the emitted log entry, so the `Math.random` draw
  does not influence the state and is omitted.
- `File` values are represented by their `name` (the only field the source
  reads); `file1 : File | null` becomes `Option String`.
- Out-of-range array reads (`config.numbers[i]` with `i` out of bounds) yield
  `undefined` in JS; they are modelled with `Option String` via `List.get?`,
  and `undefined` rendered into a template literal becomes the text
  "undefined".
-/

inductive AppState where
  | Idle
  | WaitingForNext
  | WaitingForSend
  | Finished
deriving DecidableEq, Repr

inductive CampaignStatus where
  | stopped
  | running
  | paused
  | finished
deriving DecidableEq, Repr

inductive DeliveryStatus where
  | Pending
  | Delivered
  | Read
deriving DecidableEq, Repr

/-- The `'SENT' | 'FAILED' | 'SKIPPED'` per-recipient outcome of `LogEntry.data.status`. -/
inductive SendOutcome where
  | SENT
  | FAILED
  | SKIPPED
deriving DecidableEq, Repr

inductive LogStatus where
  | SUCCESS
  | ERROR
  | INFO
  | SKIPPED
deriving DecidableEq, Repr

structure LogData where
  number : Option String
  status : Option SendOutcome
  message : Option String
  file : Option String
  deliveryStatus : Option DeliveryStatus
deriving DecidableEq, Repr

structure LogEntry where
  timestamp : String
  message : String
  status : LogStatus
  data : Option LogData
deriving DecidableEq, Repr

structure CampaignConfig where
  message1 : String
  file1 : Option String
  message2 : String
  file2 : Option String
  numbers : List String
  delayBetween : Int
  sendActionDelay : Int
  monitorNumber : String
  monitorMessages : List String
deriving DecidableEq, Repr

/-- Description of the callback captured by a `setTimeout` call: either the
`startSendAction(index)` callback armed in `processNextNumber`, or the send
body armed in `startSendAction`. -/
inductive TimerKind where
  | nextFire (index : Nat)
  | sendFire (index : Nat)
deriving DecidableEq, Repr

structure Timer where
  id : Nat
  kind : TimerKind
  delay : Int
deriving DecidableEq, Repr

/-- The whole React component state: `useState` cells, the two `useRef` timer
handles, and the pending `setTimeout` callbacks of the runtime. -/
structure AppComponent where
  config : CampaignConfig
  appState : AppState
  campaignStatus : CampaignStatus
  log : List LogEntry
  currentNumberIndex : Nat
  confirmationOpen : Bool
  errors : List (String × String)
  timerRef : Option Nat
  actionTimerRef : Option Nat
  pending : List Timer
  nextTimerId : Nat
deriving DecidableEq, Repr

/-- JS string truthiness: a string is falsy exactly when it is empty
(written over the character list so that the kernel can evaluate it). -/
def jsFalsy (s : String) : Bool :=
  s.data.isEmpty

/-- JS `String.prototype.trim`, written over the character list so that the
kernel can evaluate it. -/
def jsTrim (s : String) : String :=
  ⟨((s.data.dropWhile Char.isWhitespace).reverse.dropWhile Char.isWhitespace).reverse⟩

/-- The regex `/^\+?\d+$/`: an optional leading `+` followed by one or more
digits. -/
def phonePattern (s : String) : Bool :=
  let body := match s.data with
    | '+' :: rest => rest
    | l => l
  !body.isEmpty && body.all Char.isDigit

def addLog (s : AppComponent) (ts msg : String) (status : LogStatus)
    (data : Option LogData) : AppComponent :=
  { s with log := { timestamp := ts, message := msg, status := status, data := data } :: s.log }

/-- `if (ref.current) clearTimeout(ref.current)`. -/
def removeTimer (pending : List Timer) (ref : Option Nat) : List Timer :=
  match ref with
  | none => pending
  | some id => pending.filter (fun t => t.id != id)

def clearTimers (s : AppComponent) : AppComponent :=
  { s with pending := removeTimer (removeTimer s.pending s.timerRef) s.actionTimerRef,
           timerRef := none, actionTimerRef := none }

def validateConfig (config : CampaignConfig) : List (String × String) :=
  (if jsFalsy (jsTrim config.message1) && jsFalsy (jsTrim config.message2) then
    [("messages", "At least one message template is required.")] else []) ++
  (if config.numbers.length == 0 then
    [("numbers", "At least one phone number is required.")]
   else if config.numbers.any (fun n => !phonePattern n) then
    [("numbers", "All phone numbers must be in a valid format (e.g., +1234567890 or 1234567890).")]
   else []) ++
  (if config.delayBetween ≤ 0 then
    [("delayBetween", "Delay must be a positive number.")] else []) ++
  (if config.sendActionDelay ≤ 0 then
    [("sendActionDelay", "Action delay must be a positive number.")] else []) ++
  (if !jsFalsy config.monitorNumber && !phonePattern config.monitorNumber then
    [("monitorNumber", "Monitor number must be a valid phone number.")] else [])

def handleStartCampaign (s : AppComponent) : AppComponent :=
  let errs := validateConfig s.config
  if errs.isEmpty then { s with errors := errs, confirmationOpen := true }
  else { s with errors := errs }

def processNextNumber (s : AppComponent) (ts : String) (index : Nat) : AppComponent :=
  if s.config.numbers.length ≤ index then
    clearTimers (addLog { s with appState := .Finished, campaignStatus := .finished }
      ts "Campaign finished." .INFO none)
  else
    let delay : Int := if index == 0 then 0 else s.config.delayBetween * 1000
    { s with appState := .WaitingForNext,
             pending := s.pending ++ [{ id := s.nextTimerId, kind := .nextFire index, delay := delay }],
             timerRef := some s.nextTimerId,
             nextTimerId := s.nextTimerId + 1 }

def startSendAction (s : AppComponent) (index : Nat) : AppComponent :=
  { s with appState := .WaitingForSend,
           pending := s.pending ++ [{ id := s.nextTimerId, kind := .sendFire index,
                                      delay := s.config.sendActionDelay * 1000 }],
           actionTimerRef := some s.nextTimerId,
           nextTimerId := s.nextTimerId + 1 }

/-- Body of the `setTimeout` callback armed in `startSendAction`. -/
def runSendFire (s : AppComponent) (ts : String) (index : Nat) : AppComponent :=
  let sentNumber := s.config.numbers.get? index
  let msgIndex := index % 2
  let msg := if msgIndex == 0 then s.config.message1 else s.config.message2
  let file := if msgIndex == 0 then s.config.file1 else s.config.file2
  let s1 := addLog s ts ("Message presumed SENT to " ++ sentNumber.getD "undefined" ++ ".")
    .SUCCESS (some { number := sentNumber, status := some .SENT, message := some msg,
                     file := file, deliveryStatus := some .Pending })
  let s2 := if !jsFalsy s.config.monitorNumber && 0 < s.config.monitorMessages.length then
      addLog s1 ts ("Sending monitor message to " ++ s.config.monitorNumber) .INFO none
    else s1
  let nextIndex := index + 1
  processNextNumber { s2 with currentNumberIndex := nextIndex } ts nextIndex

def runTimerKind (s : AppComponent) (ts : String) : TimerKind → AppComponent
  | .nextFire index => startSendAction s index
  | .sendFire index => runSendFire s ts index

/-- The event loop delivering the pending timeout with the given id; a no-op
when no such timeout is pending (a cancelled callback never executes). -/
def fireTimer (s : AppComponent) (ts : String) (id : Nat) : AppComponent :=
  match s.pending.find? (fun t => t.id == id) with
  | none => s
  | some t => runTimerKind { s with pending := s.pending.filter (fun u => u.id != id) } ts t.kind

def executeStartCampaign (s : AppComponent) (ts : String) : AppComponent :=
  let s1 := addLog { s with log := [], currentNumberIndex := 0, campaignStatus := .running }
    ts "Campaign started." .INFO none
  processNextNumber s1 ts 0

def handleStopCampaign (s : AppComponent) (ts : String) : AppComponent :=
  addLog { clearTimers s with appState := .Idle, campaignStatus := .stopped }
    ts "Campaign stopped by user." .INFO none

def handlePauseCampaign (s : AppComponent) (ts : String) : AppComponent :=
  addLog { clearTimers s with campaignStatus := .paused } ts "Campaign paused." .INFO none

def handleResumeCampaign (s : AppComponent) (ts : String) : AppComponent :=
  let s1 := addLog { s with campaignStatus := .running } ts "Campaign resumed." .INFO none
  if s.appState == .WaitingForNext then processNextNumber s1 ts s.currentNumberIndex
  else if s.appState == .WaitingForSend then startSendAction s1 s.currentNumberIndex
  else s1

def handleSkipNumber (s : AppComponent) (ts : String) : AppComponent :=
  let s0 := { s with pending := removeTimer s.pending s.actionTimerRef, actionTimerRef := none }
  let skipped := s.config.numbers.get? s.currentNumberIndex
  let s1 := addLog s0 ts ("Skipped number: " ++ skipped.getD "undefined") .SKIPPED
    (some { number := skipped, status := some .SKIPPED, message := none, file := none,
            deliveryStatus := none })
  let nextIndex := s.currentNumberIndex + 1
  processNextNumber { s1 with currentNumberIndex := nextIndex } ts nextIndex

def handleUpdateDeliveryStatus (s : AppComponent) (logIndex : Nat)
    (newStatus : DeliveryStatus) : AppComponent :=
  { s with log :=
      match s.log.get? logIndex with
      | none => s.log
      | some e =>
        match e.data with
        | none => s.log
        | some d => s.log.set logIndex { e with data := some { d with deliveryStatus := some newStatus } } }

/-- The component's state right after mounting (the initial `useState` /
`useRef` values), with the configuration abstracted as a parameter. -/
def initialComponent (config : CampaignConfig) : AppComponent :=
  { config := config, appState := .Idle, campaignStatus := .stopped, log := [],
    currentNumberIndex := 0, confirmationOpen := false, errors := [],
    timerRef := none, actionTimerRef := none, pending := [], nextTimerId := 1 }

/-- One externally triggered event during a campaign run: a pending timeout
firing, or one of the operator handlers. -/
inductive Op where
  | fire (id : Nat) (ts : String)
  | skip (ts : String)
  | pause (ts : String)
  | resume (ts : String)
  | stop (ts : String)
deriving DecidableEq, Repr

def step (s : AppComponent) : Op → AppComponent
  | .fire id ts => fireTimer s ts id
  | .skip ts => handleSkipNumber s ts
  | .pause ts => handlePauseCampaign s ts
  | .resume ts => handleResumeCampaign s ts
  | .stop ts => handleStopCampaign s ts

def runOps (s : AppComponent) : List Op → AppComponent
  | [] => s
  | op :: ops => runOps (step s op) ops

/-- States reachable from a started campaign by any sequence of operations. -/
inductive Reachable (config : CampaignConfig) : AppComponent → Prop where
  | start (ts : String) :
      Reachable config (executeStartCampaign (initialComponent config) ts)
  | more (s : AppComponent) (op : Op) :
      Reachable config s → Reachable config (step s op)

/-- The validity condition the specification attaches to each operator
operation: skip only while a send-delay is outstanding, pause only while
running, resume only while paused, stop only while running or paused.  Timer
fires are always allowed (firing a non-pending id is a no-op). -/
def validOp (s : AppComponent) : Op → Prop
  | .fire _ _ => True
  | .skip _ => s.campaignStatus = .running ∧ s.appState = .WaitingForSend
  | .pause _ => s.campaignStatus = .running
  | .resume _ => s.campaignStatus = .paused
  | .stop _ => s.campaignStatus = .running ∨ s.campaignStatus = .paused

/-- States reachable from a started campaign when every operation is invoked
only under its validity condition. -/
inductive ReachableValid (config : CampaignConfig) : AppComponent → Prop where
  | start (ts : String) :
      ReachableValid config (executeStartCampaign (initialComponent config) ts)
  | more (s : AppComponent) (op : Op) :
      ReachableValid config s → validOp s op → ReachableValid config (step s op)

/-- A minimal valid configuration with a single recipient, used as concrete
input for witnesses and counterexamples. -/
def cfg1 : CampaignConfig :=
  { message1 := "A", file1 := none, message2 := "B", file2 := none,
    numbers := ["111"], delayBetween := 1, sendActionDelay := 1,
    monitorNumber := "", monitorMessages := [] }

/-- The same configuration with two recipients. -/
def cfg2 : CampaignConfig := { cfg1 with numbers := ["111", "222"] }

/-- The same configuration with three recipients (the scenario of the spec's
three-recipient run). -/
def cfg3 : CampaignConfig := { cfg1 with numbers := ["111", "222", "333"] }

/-- The structured payload attached by `handleSkipNumber` to the SKIPPED entry
of the current recipient. -/
def skippedData (s : AppComponent) : LogData :=
  { number := s.config.numbers.get? s.currentNumberIndex, status := some .SKIPPED,
    message := none, file := none, deliveryStatus := none }

/-- The SKIPPED log entry emitted by `handleSkipNumber` for the current
recipient of state `s`. -/
def skipLogEntry (s : AppComponent) (ts : String) : LogEntry :=
  { timestamp := ts,
    message := "Skipped number: " ++ (s.config.numbers.get? s.currentNumberIndex).getD "undefined",
    status := .SKIPPED, data := some (skippedData s) }

/-- The INFO entry emitted when the campaign finishes. -/
def finishedLogEntry (ts : String) : LogEntry :=
  { timestamp := ts, message := "Campaign finished.", status := .INFO, data := none }

/-- The INFO entry emitted by `handlePauseCampaign`. -/
def pausedLogEntry (ts : String) : LogEntry :=
  { timestamp := ts, message := "Campaign paused.", status := .INFO, data := none }

/-- The INFO entry emitted by `handleResumeCampaign`. -/
def resumedLogEntry (ts : String) : LogEntry :=
  { timestamp := ts, message := "Campaign resumed.", status := .INFO, data := none }

/-- The validation conditions enumerated by the specification, written as one
Bool predicate following the spec's words: no non-blank template; recipient
list empty or containing an entry that fails the phone pattern; either delay
non-positive; monitor recipient present but failing the phone pattern. -/
def specRejects (config : CampaignConfig) : Bool :=
  (jsFalsy (jsTrim config.message1) && jsFalsy (jsTrim config.message2)) ||
  config.numbers.isEmpty ||
  config.numbers.any (fun n => !phonePattern n) ||
  decide (config.delayBetween ≤ 0) ||
  decide (config.sendActionDelay ≤ 0) ||
  (!jsFalsy config.monitorNumber && !phonePattern config.monitorNumber)

/-- Strengthened invariant of a campaign run under validly invoked operations:
the five reachable state classes, each recording status, phase, the position
bound and the exact pending-timer shape. -/
def RunInv (s : AppComponent) : Prop :=
  (s.campaignStatus = .running ∧ s.appState = .WaitingForNext ∧
     s.currentNumberIndex < s.config.numbers.length ∧
     ∃ i d, s.pending = [⟨i, .nextFire s.currentNumberIndex, d⟩] ∧ s.timerRef = some i) ∨
  (s.campaignStatus = .running ∧ s.appState = .WaitingForSend ∧
     s.currentNumberIndex < s.config.numbers.length ∧
     ∃ i d, s.pending = [⟨i, .sendFire s.currentNumberIndex, d⟩] ∧ s.actionTimerRef = some i) ∨
  (s.campaignStatus = .paused ∧ (s.appState = .WaitingForNext ∨ s.appState = .WaitingForSend) ∧
     s.currentNumberIndex < s.config.numbers.length ∧ s.pending = []) ∨
  (s.campaignStatus = .finished ∧ s.appState = .Finished ∧
     s.currentNumberIndex = s.config.numbers.length ∧ s.pending = []) ∨
  (s.campaignStatus = .stopped ∧ s.appState = .Idle ∧
     s.currentNumberIndex < s.config.numbers.length ∧ s.pending = [])

/-- An uninterrupted full run on the three-recipient configuration: start,
then let all six armed timers fire in order (next-delay and send-delay for
each of the three recipients). -/
def fullRunThree : AppComponent :=
  runOps (executeStartCampaign (initialComponent cfg3) "t")
    [.fire 1 "t", .fire 2 "t", .fire 3 "t", .fire 4 "t", .fire 5 "t", .fire 6 "t"]

/-- A component holding a two-entry log (newest-first): a SUCCESS entry with a
structured payload and an INFO entry without one. -/
def logSample : AppComponent :=
  { initialComponent cfg1 with log := [
      { timestamp := "t1", message := "m1", status := .SUCCESS,
        data := some { number := some "111", status := some .SENT, message := some "A",
                       file := none, deliveryStatus := some .Pending } },
      { timestamp := "t2", message := "m2", status := .INFO, data := none } ] }

theorem removeTimer_nil (ref : Option Nat) : removeTimer [] ref = [] := by
  cases ref <;> rfl

theorem removeTimer_singleton_inner (t : Timer) (r : Option Nat) :
    removeTimer (removeTimer [t] (some t.id)) r = [] := by
  have h1 : removeTimer [t] (some t.id) = [] := by simp [removeTimer]
  rw [h1]; exact removeTimer_nil r

theorem removeTimer_singleton_same (t : Timer) (r : Option Nat) :
    removeTimer (removeTimer [t] r) (some t.id) = [] := by
  have hsub : ∀ u ∈ removeTimer [t] r, u = t := by
    cases r with
    | none => intro u hu; simpa [removeTimer] using hu
    | some j =>
      intro u hu
      simp only [removeTimer] at hu
      simpa using List.mem_of_mem_filter hu
  simp only [removeTimer]
  rw [List.filter_eq_nil_iff]
  intro u hu
  rw [hsub u hu]
  simp

theorem fireTimer_of_none (s : AppComponent) (ts : String) (id : Nat)
    (h : s.pending.find? (fun t => t.id == id) = none) : fireTimer s ts id = s := by
  unfold fireTimer
  rw [h]

theorem fireTimer_of_missing (s : AppComponent) (ts : String) (id : Nat)
    (h : ∀ t ∈ s.pending, t.id ≠ id) : fireTimer s ts id = s := by
  apply fireTimer_of_none
  rw [List.find?_eq_none]
  intro t ht
  simpa using h t ht

theorem fireTimer_of_single (s : AppComponent) (ts : String) (t : Timer)
    (hp : s.pending = [t]) :
    fireTimer s ts t.id = runTimerKind { s with pending := [] } ts t.kind := by
  unfold fireTimer
  rw [hp]
  rw [List.find?_cons_of_pos _ (by simp)]
  simp

theorem processNextNumber_inv (s : AppComponent) (ts : String)
    (hst : s.campaignStatus = .running)
    (hp : s.pending = [])
    (hle : s.currentNumberIndex ≤ s.config.numbers.length) :
    RunInv (processNextNumber s ts s.currentNumberIndex) := by
  unfold processNextNumber
  split
  · next h =>
    right; right; right; left
    refine ⟨rfl, rfl, ?_, ?_⟩
    · simpa [clearTimers, addLog] using Nat.le_antisymm hle h
    · simp [clearTimers, addLog, hp, removeTimer_nil]
  · next h =>
    left
    refine ⟨hst, rfl, Nat.lt_of_not_le h, s.nextTimerId,
      (if s.currentNumberIndex == 0 then 0 else s.config.delayBetween * 1000), ?_, rfl⟩
    simp [hp]

theorem processNextNumber_inv_at (b : AppComponent) (ts : String) (k : Nat)
    (hst : b.campaignStatus = .running) (hp : b.pending = [])
    (hk : b.currentNumberIndex = k) (hle : k ≤ b.config.numbers.length) :
    RunInv (processNextNumber b ts k) := by
  subst hk
  exact processNextNumber_inv b ts hst hp hle

theorem startSendAction_inv (s : AppComponent)
    (hst : s.campaignStatus = .running)
    (hp : s.pending = [])
    (hlt : s.currentNumberIndex < s.config.numbers.length) :
    RunInv (startSendAction s s.currentNumberIndex) := by
  right; left
  exact ⟨hst, rfl, hlt, s.nextTimerId, s.config.sendActionDelay * 1000,
    by simp [startSendAction, hp], rfl⟩

theorem runSendFire_inv (s : AppComponent) (ts : String) (index : Nat)
    (hst : s.campaignStatus = .running)
    (hp : s.pending = [])
    (hlt : index < s.config.numbers.length) :
    RunInv (runSendFire s ts index) := by
  unfold runSendFire
  by_cases hm : (!jsFalsy s.config.monitorNumber && decide (0 < s.config.monitorMessages.length)) = true
  · simp only [hm, if_true]
    exact processNextNumber_inv_at _ ts (index + 1) (by simp [addLog, hst])
      (by simp [addLog, hp]) rfl (by simpa [addLog] using hlt)
  · simp only [hm, if_false]
    exact processNextNumber_inv_at _ ts (index + 1) (by simp [addLog, hst])
      (by simp [addLog, hp]) rfl (by simpa [addLog] using hlt)

theorem inv_start (config : CampaignConfig) (ts : String) :
    RunInv (executeStartCampaign (initialComponent config) ts) := by
  unfold executeStartCampaign
  exact processNextNumber_inv _ ts rfl rfl (Nat.zero_le _)

theorem inv_fire (s : AppComponent) (ts : String) (id : Nat) (h : RunInv s) :
    RunInv (fireTimer s ts id) := by
  rcases h with ⟨h1, h2, h3, i, d, hp, hr⟩ | ⟨h1, h2, h3, i, d, hp, hr⟩ |
    ⟨h1, h2, h3, hp⟩ | ⟨h1, h2, h3, hp⟩ | ⟨h1, h2, h3, hp⟩
  · by_cases hiq : i = id
    · subst hiq
      rw [fireTimer_of_single s ts _ hp]
      exact startSendAction_inv _ h1 rfl h3
    · rw [fireTimer_of_missing s ts id (by rw [hp]; intro t ht; simp at ht; rw [ht]; simpa using hiq)]
      exact Or.inl ⟨h1, h2, h3, i, d, hp, hr⟩
  · by_cases hiq : i = id
    · subst hiq
      rw [fireTimer_of_single s ts _ hp]
      exact runSendFire_inv _ ts _ h1 rfl h3
    · rw [fireTimer_of_missing s ts id (by rw [hp]; intro t ht; simp at ht; rw [ht]; simpa using hiq)]
      exact Or.inr (Or.inl ⟨h1, h2, h3, i, d, hp, hr⟩)
  · rw [fireTimer_of_missing s ts id (by rw [hp]; intro t ht; cases ht)]
    exact Or.inr (Or.inr (Or.inl ⟨h1, h2, h3, hp⟩))
  · rw [fireTimer_of_missing s ts id (by rw [hp]; intro t ht; cases ht)]
    exact Or.inr (Or.inr (Or.inr (Or.inl ⟨h1, h2, h3, hp⟩)))
  · rw [fireTimer_of_missing s ts id (by rw [hp]; intro t ht; cases ht)]
    exact Or.inr (Or.inr (Or.inr (Or.inr ⟨h1, h2, h3, hp⟩)))

theorem inv_skip (s : AppComponent) (ts : String) (h : RunInv s)
    (hst : s.campaignStatus = .running) (hph : s.appState = .WaitingForSend) :
    RunInv (handleSkipNumber s ts) := by
  rcases h with ⟨h1, h2, h3, i, d, hp, hr⟩ | ⟨h1, h2, h3, i, d, hp, hr⟩ |
    ⟨h1, h2, h3, hp⟩ | ⟨h1, h2, h3, hp⟩ | ⟨h1, h2, h3, hp⟩
  · rw [h2] at hph; cases hph
  · unfold handleSkipNumber
    apply processNextNumber_inv_at _ ts (s.currentNumberIndex + 1)
    · simp [addLog, hst]
    · simp [addLog, hp, hr, removeTimer]
    · rfl
    · simpa [addLog] using h3
  · rw [h1] at hst; cases hst
  · rw [h1] at hst; cases hst
  · rw [h1] at hst; cases hst

theorem inv_pause (s : AppComponent) (ts : String) (h : RunInv s)
    (hst : s.campaignStatus = .running) :
    RunInv (handlePauseCampaign s ts) := by
  rcases h with ⟨h1, h2, h3, i, d, hp, hr⟩ | ⟨h1, h2, h3, i, d, hp, hr⟩ |
    ⟨h1, h2, h3, hp⟩ | ⟨h1, h2, h3, hp⟩ | ⟨h1, h2, h3, hp⟩
  · right; right; left
    refine ⟨rfl, Or.inl (by simpa [handlePauseCampaign, addLog, clearTimers] using h2),
      by simpa [handlePauseCampaign, addLog, clearTimers] using h3, ?_⟩
    simp only [handlePauseCampaign, addLog, clearTimers]
    rw [hp, hr]
    exact removeTimer_singleton_inner _ _
  · right; right; left
    refine ⟨rfl, Or.inr (by simpa [handlePauseCampaign, addLog, clearTimers] using h2),
      by simpa [handlePauseCampaign, addLog, clearTimers] using h3, ?_⟩
    simp only [handlePauseCampaign, addLog, clearTimers]
    rw [hp, hr]
    exact removeTimer_singleton_same _ _
  · rw [h1] at hst; cases hst
  · rw [h1] at hst; cases hst
  · rw [h1] at hst; cases hst

theorem inv_resume (s : AppComponent) (ts : String) (h : RunInv s)
    (hst : s.campaignStatus = .paused) :
    RunInv (handleResumeCampaign s ts) := by
  rcases h with ⟨h1, h2, h3, i, d, hp, hr⟩ | ⟨h1, h2, h3, i, d, hp, hr⟩ |
    ⟨h1, hph, h3, hp⟩ | ⟨h1, h2, h3, hp⟩ | ⟨h1, h2, h3, hp⟩
  · rw [h1] at hst; cases hst
  · rw [h1] at hst; cases hst
  · unfold handleResumeCampaign
    rcases hph with hph | hph
    · rw [if_pos (by simp [hph])]
      apply processNextNumber_inv_at _ ts s.currentNumberIndex
      · simp [addLog]
      · simp [addLog, hp]
      · rfl
      · simpa [addLog] using Nat.le_of_lt h3
    · rw [if_neg (by simp [hph]), if_pos (by simp [hph])]
      exact startSendAction_inv _ (by simp [addLog]) (by simp [addLog, hp])
        (by simpa [addLog] using h3)
  · rw [h1] at hst; cases hst
  · rw [h1] at hst; cases hst

theorem inv_stop (s : AppComponent) (ts : String) (h : RunInv s)
    (hst : s.campaignStatus = .running ∨ s.campaignStatus = .paused) :
    RunInv (handleStopCampaign s ts) := by
  rcases h with ⟨h1, h2, h3, i, d, hp, hr⟩ | ⟨h1, h2, h3, i, d, hp, hr⟩ |
    ⟨h1, h2, h3, hp⟩ | ⟨h1, h2, h3, hp⟩ | ⟨h1, h2, h3, hp⟩
  · right; right; right; right
    refine ⟨rfl, rfl, by simpa [handleStopCampaign, addLog, clearTimers] using h3, ?_⟩
    simp only [handleStopCampaign, addLog, clearTimers]
    rw [hp, hr]
    exact removeTimer_singleton_inner _ _
  · right; right; right; right
    refine ⟨rfl, rfl, by simpa [handleStopCampaign, addLog, clearTimers] using h3, ?_⟩
    simp only [handleStopCampaign, addLog, clearTimers]
    rw [hp, hr]
    exact removeTimer_singleton_same _ _
  · right; right; right; right
    refine ⟨rfl, rfl, by simpa [handleStopCampaign, addLog, clearTimers] using h3, ?_⟩
    simp [handleStopCampaign, addLog, clearTimers, hp, removeTimer_nil]
  · rcases hst with hst | hst <;> (rw [h1] at hst; cases hst)
  · rcases hst with hst | hst <;> (rw [h1] at hst; cases hst)

theorem inv_reachableValid (config : CampaignConfig) (s : AppComponent)
    (h : ReachableValid config s) : RunInv s := by
  induction h with
  | start ts => exact inv_start config ts
  | more s2 op hr2 hv ih =>
    cases op with
    | fire id ts => exact inv_fire s2 ts id ih
    | skip ts => exact inv_skip s2 ts ih hv.1 hv.2
    | pause ts => exact inv_pause s2 ts ih hv
    | resume ts => exact inv_resume s2 ts ih hv
    | stop ts => exact inv_stop s2 ts ih hv

theorem handleSkipNumber_spec (s : AppComponent) (ts : String) :
    (handleSkipNumber s ts).currentNumberIndex = s.currentNumberIndex + 1 ∧
    (handleSkipNumber s ts).log =
      (if s.config.numbers.length ≤ s.currentNumberIndex + 1
        then [finishedLogEntry ts, skipLogEntry s ts]
        else [skipLogEntry s ts]) ++ s.log := by
  by_cases h : s.config.numbers.length ≤ s.currentNumberIndex + 1
  · rw [if_pos h]
    unfold handleSkipNumber processNextNumber
    rw [if_pos (by simpa [addLog] using h)]
    constructor
    · simp [addLog, clearTimers]
    · simp [addLog, clearTimers, skipLogEntry, skippedData, finishedLogEntry]
  · rw [if_neg h]
    unfold handleSkipNumber processNextNumber
    rw [if_neg (by simpa [addLog] using h)]
    constructor
    · simp [addLog]
    · simp [addLog, skipLogEntry, skippedData]

theorem validateConfig_eq_nil_iff (config : CampaignConfig) :
    validateConfig config = [] ↔ specRejects config = false := by
  have hb : config.numbers.isEmpty = (config.numbers.length == 0) := by
    cases config.numbers <;> rfl
  unfold validateConfig specRejects
  rw [hb]
  simp only [List.append_eq_nil, ite_eq_iff, List.cons_ne_nil, Bool.or_eq_false_iff,
    Bool.not_eq_true, decide_eq_false_iff_not, and_false, false_and, or_false, false_or,
    and_true, true_and, eq_self_iff_true, not_false_iff]
  tauto

theorem handleUpdate_log_of_none (s : AppComponent) (k : Nat) (st : DeliveryStatus)
    (hk : s.log.get? k = none) : (handleUpdateDeliveryStatus s k st).log = s.log := by
  unfold handleUpdateDeliveryStatus
  simp only [hk]

theorem handleUpdate_log_of_nodata (s : AppComponent) (k : Nat) (st : DeliveryStatus)
    (e : LogEntry) (hk : s.log.get? k = some e) (hd : e.data = none) :
    (handleUpdateDeliveryStatus s k st).log = s.log := by
  unfold handleUpdateDeliveryStatus
  simp only [hk, hd]

theorem handleUpdate_log_of_data (s : AppComponent) (k : Nat) (st : DeliveryStatus)
    (e : LogEntry) (d : LogData) (hk : s.log.get? k = some e) (hd : e.data = some d) :
    (handleUpdateDeliveryStatus s k st).log =
      s.log.set k { timestamp := e.timestamp, message := e.message, status := e.status,
                    data := some { number := d.number, status := d.status, message := d.message,
                                   file := d.file, deliveryStatus := some st } } := by
  unfold handleUpdateDeliveryStatus
  simp only [hk, hd]

/-- C1 counterexample: the invariant fails as stated.  On the one-recipient
configuration, letting both timers fire finishes the campaign with position 1,
and a further skip (allowed by the code, which does not guard on phase) is a
reachable operation that pushes the position to 2, strictly above the length
of the recipient list. -/
theorem C1_counterexample :
    Reachable cfg1
      (runOps (executeStartCampaign (initialComponent cfg1) "t")
        [.fire 1 "t", .fire 2 "t", .skip "u"]) ∧
    (runOps (executeStartCampaign (initialComponent cfg1) "t")
        [.fire 1 "t", .fire 2 "t", .skip "u"]).currentNumberIndex = 2 ∧
    cfg1.numbers.length = 1 := by
  refine ⟨?_, by decide, by decide⟩
  simp only [runOps]
  exact Reachable.more _ _ (Reachable.more _ _ (Reachable.more _ _ (Reachable.start "t")))

/-- C1 (amended): in every state reachable from a started campaign by
operations invoked only under their validity conditions (skip only while
running with a send-delay outstanding, pause only while running, resume only
while paused, stop only while running or paused; timer fires any time), the
position satisfies 0 ≤ position ≤ len(recipients), and position =
len(recipients) implies the phase is Finished. -/
theorem C1_position_invariant (config : CampaignConfig) (s : AppComponent)
    (h : ReachableValid config s) :
    0 ≤ s.currentNumberIndex ∧ s.currentNumberIndex ≤ s.config.numbers.length ∧
    (s.currentNumberIndex = s.config.numbers.length → s.appState = .Finished) := by
  have hinv := inv_reachableValid config s h
  refine ⟨Nat.zero_le _, ?_, ?_⟩
  · rcases hinv with ⟨_, _, h3, _⟩ | ⟨_, _, h3, _⟩ | ⟨_, _, h3, _⟩ | ⟨_, _, h3, _⟩ | ⟨_, _, h3, _⟩
    · exact Nat.le_of_lt h3
    · exact Nat.le_of_lt h3
    · exact Nat.le_of_lt h3
    · exact Nat.le_of_eq h3
    · exact Nat.le_of_lt h3
  · intro heq
    rcases hinv with ⟨_, _, h3, _⟩ | ⟨_, _, h3, _⟩ | ⟨_, _, h3, _⟩ | ⟨_, h2, _, _⟩ | ⟨_, _, h3, _⟩
    · exact absurd heq (Nat.ne_of_lt h3)
    · exact absurd heq (Nat.ne_of_lt h3)
    · exact absurd heq (Nat.ne_of_lt h3)
    · exact h2
    · exact absurd heq (Nat.ne_of_lt h3)

/-- Witness instantiating the amended C1 invariant at the freshly started
one-recipient campaign. -/
theorem C1_position_invariant_witness :
    0 ≤ (executeStartCampaign (initialComponent cfg1) "t").currentNumberIndex ∧
    (executeStartCampaign (initialComponent cfg1) "t").currentNumberIndex ≤
      (executeStartCampaign (initialComponent cfg1) "t").config.numbers.length ∧
    ((executeStartCampaign (initialComponent cfg1) "t").currentNumberIndex =
        (executeStartCampaign (initialComponent cfg1) "t").config.numbers.length →
      (executeStartCampaign (initialComponent cfg1) "t").appState = .Finished) :=
  C1_position_invariant cfg1 _ (ReachableValid.start "t")

/-- C2 counterexample: on a freshly started two-recipient campaign the phase
is WaitingForNext (no send-delay outstanding), yet skip() advances the
position from 0 to 1 and prepends a SKIPPED log entry — it is not a no-op. -/
theorem C2_counterexample :
    (executeStartCampaign (initialComponent cfg2) "t").appState = .WaitingForNext ∧
    (executeStartCampaign (initialComponent cfg2) "t").currentNumberIndex = 0 ∧
    (handleSkipNumber (executeStartCampaign (initialComponent cfg2) "t") "u").currentNumberIndex = 1 ∧
    (handleSkipNumber (executeStartCampaign (initialComponent cfg2) "t") "u").log.length =
      (executeStartCampaign (initialComponent cfg2) "t").log.length + 1 ∧
    ((handleSkipNumber (executeStartCampaign (initialComponent cfg2) "t") "u").log.head?.map
      LogEntry.status) = some .SKIPPED := by
  decide

/-- C2 (amended): skip() is not guarded by phase.  In every state it cancels
the send-timer slot if armed, emits a SKIPPED entry for the current recipient
(with a payload carrying the recipient and outcome SKIPPED but no message,
file or delivery-status fields), advances the position by one, and re-enters
the progression — which immediately also emits the finish entry when the
advanced position exhausts the recipient list. -/
theorem C2_skip_always_acts (s : AppComponent) (ts : String) :
    (handleSkipNumber s ts).currentNumberIndex = s.currentNumberIndex + 1 ∧
    (handleSkipNumber s ts).log =
      (if s.config.numbers.length ≤ s.currentNumberIndex + 1
        then [finishedLogEntry ts, skipLogEntry s ts]
        else [skipLogEntry s ts]) ++ s.log :=
  handleSkipNumber_spec s ts

/-- C3 counterexample: a skip issued while the next-delay is outstanding does
not cancel that timer (only the send slot is cleared), and the re-entered
progression arms a second one — a reachable state with two timers pending at
once. -/
theorem C3_counterexample :
    Reachable cfg2 (runOps (executeStartCampaign (initialComponent cfg2) "t") [.skip "u"]) ∧
    (runOps (executeStartCampaign (initialComponent cfg2) "t") [.skip "u"]).pending.length = 2 := by
  refine ⟨?_, by decide⟩
  simp only [runOps]
  exact Reachable.more _ _ (Reachable.start "t")

/-- C3 (amended): under operations invoked only in their validity conditions,
at most one timer is pending at any reachable state; and the callback of a
timeout that is not pending (in particular a cancelled one) never executes —
delivering such an id leaves the state unchanged, producing no transition and
no log entry. -/
theorem C3_timer_discipline :
    (∀ (config : CampaignConfig) (s : AppComponent),
      ReachableValid config s → s.pending.length ≤ 1) ∧
    (∀ (s : AppComponent) (ts : String) (id : Nat),
      s.pending.find? (fun t => t.id == id) = none → fireTimer s ts id = s) := by
  constructor
  · intro config s h
    rcases inv_reachableValid config s h with ⟨_, _, _, i, d, hp, _⟩ | ⟨_, _, _, i, d, hp, _⟩ |
      ⟨_, _, _, hp⟩ | ⟨_, _, _, hp⟩ | ⟨_, _, _, hp⟩ <;> simp [hp]
  · exact fireTimer_of_none

/-- Witness instantiating C3: the started one-recipient campaign has a single
pending timer, and firing an id that was never armed changes nothing. -/
theorem C3_timer_discipline_witness :
    (executeStartCampaign (initialComponent cfg1) "t").pending.length ≤ 1 ∧
    fireTimer (initialComponent cfg1) "t" 7 = initialComponent cfg1 :=
  ⟨C3_timer_discipline.1 cfg1 _ (ReachableValid.start "t"),
   C3_timer_discipline.2 (initialComponent cfg1) "t" 7 rfl⟩

/-- C4 counterexample: pause() invoked while the status is stopped still
switches the status to paused and emits a log entry — it is not a no-op
outside the running status. -/
theorem C4_counterexample :
    (initialComponent cfg1).campaignStatus = .stopped ∧
    (handlePauseCampaign (initialComponent cfg1) "t").campaignStatus = .paused ∧
    (handlePauseCampaign (initialComponent cfg1) "t").log.length =
      (initialComponent cfg1).log.length + 1 := by
  decide

/-- C4 (amended): pause() is not guarded by status.  Whatever the current
status, it cancels both timer slots, leaves the phase and position unchanged,
sets the status to paused, and prepends the INFO "Campaign paused." entry. -/
theorem C4_pause_unconditional (s : AppComponent) (ts : String) :
    (handlePauseCampaign s ts).campaignStatus = .paused ∧
    (handlePauseCampaign s ts).appState = s.appState ∧
    (handlePauseCampaign s ts).currentNumberIndex = s.currentNumberIndex ∧
    (handlePauseCampaign s ts).log = pausedLogEntry ts :: s.log ∧
    (handlePauseCampaign s ts).timerRef = none ∧
    (handlePauseCampaign s ts).actionTimerRef = none ∧
    (handlePauseCampaign s ts).pending =
      removeTimer (removeTimer s.pending s.timerRef) s.actionTimerRef := by
  simp [handlePauseCampaign, addLog, clearTimers, pausedLogEntry]

/-- C5 counterexample: resume() invoked in the initial Idle state still sets
the status to running and emits a log entry — it is not a no-op when the
phase is Idle. -/
theorem C5_counterexample :
    (initialComponent cfg1).appState = .Idle ∧
    (handleResumeCampaign (initialComponent cfg1) "t").campaignStatus = .running ∧
    (handleResumeCampaign (initialComponent cfg1) "t").log.length =
      (initialComponent cfg1).log.length + 1 := by
  decide

/-- C5 (amended): resume() always sets the status to running and prepends the
INFO "Campaign resumed." entry, even when the phase is Idle or Finished (in
which case nothing else changes and no timer is armed); when the phase is
WaitingForNext with position < len it re-arms the next-delay at its full
configured duration, and when WaitingForSend it re-arms the send-delay at its
full configured duration. -/
theorem C5_resume_unconditional (s : AppComponent) (ts : String) :
    ((s.appState = .Idle ∨ s.appState = .Finished) →
      handleResumeCampaign s ts =
        { s with campaignStatus := .running, log := resumedLogEntry ts :: s.log }) ∧
    (s.appState = .WaitingForNext → s.currentNumberIndex < s.config.numbers.length →
      (handleResumeCampaign s ts).appState = .WaitingForNext ∧
      (handleResumeCampaign s ts).campaignStatus = .running ∧
      (handleResumeCampaign s ts).currentNumberIndex = s.currentNumberIndex ∧
      (handleResumeCampaign s ts).log = resumedLogEntry ts :: s.log ∧
      (handleResumeCampaign s ts).pending = s.pending ++
        [⟨s.nextTimerId, .nextFire s.currentNumberIndex,
          if s.currentNumberIndex == 0 then 0 else s.config.delayBetween * 1000⟩]) ∧
    (s.appState = .WaitingForSend →
      (handleResumeCampaign s ts).appState = .WaitingForSend ∧
      (handleResumeCampaign s ts).campaignStatus = .running ∧
      (handleResumeCampaign s ts).currentNumberIndex = s.currentNumberIndex ∧
      (handleResumeCampaign s ts).log = resumedLogEntry ts :: s.log ∧
      (handleResumeCampaign s ts).pending = s.pending ++
        [⟨s.nextTimerId, .sendFire s.currentNumberIndex, s.config.sendActionDelay * 1000⟩]) := by
  refine ⟨?_, ?_, ?_⟩
  · intro h
    unfold handleResumeCampaign
    rcases h with h | h <;>
      rw [if_neg (by simp [h]), if_neg (by simp [h])] <;>
      simp [addLog, resumedLogEntry]
  · intro h hlt
    unfold handleResumeCampaign processNextNumber
    rw [if_pos (by simp [h])]
    rw [if_neg (by simpa [addLog] using Nat.not_le.mpr hlt)]
    refine ⟨rfl, by simp [addLog], by simp [addLog], by simp [addLog, resumedLogEntry], ?_⟩
    simp [addLog]
  · intro h
    unfold handleResumeCampaign startSendAction
    rw [if_neg (by simp [h]), if_pos (by simp [h])]
    refine ⟨rfl, by simp [addLog], by simp [addLog], by simp [addLog, resumedLogEntry], ?_⟩
    simp [addLog]

/-- Witness instantiating the amended C5 at the initial Idle component. -/
theorem C5_resume_unconditional_witness :
    handleResumeCampaign (initialComponent cfg1) "t" =
      { initialComponent cfg1 with campaignStatus := .running, log := [resumedLogEntry "t"] } :=
  (C5_resume_unconditional (initialComponent cfg1) "t").1 (Or.inl rfl)

/-- C6 counterexample: the uninterrupted three-recipient run ends finished but
creates five INFO/SUCCESS-tagged entries (start, one send per recipient, and
finish), not four as the claim counts them. -/
theorem C6_counterexample :
    fullRunThree.campaignStatus = .finished ∧
    (fullRunThree.log.filter (fun e => e.status == .INFO || e.status == .SUCCESS)).length = 5 := by
  decide

/-- C6 (amended): the full uninterrupted run on three recipients with no
monitor recipient creates exactly five log entries, all tagged INFO or
SUCCESS — the start entry, one SUCCESS send entry per recipient and the
finish entry — and the three SUCCESS entries use template 1, template 2,
template 1 in recipient order (selection by recipient index parity). -/
theorem C6_three_recipient_run :
    fullRunThree.campaignStatus = .finished ∧
    fullRunThree.appState = .Finished ∧
    fullRunThree.currentNumberIndex = 3 ∧
    fullRunThree.log.length = 5 ∧
    (fullRunThree.log.filter (fun e => e.status == .INFO || e.status == .SUCCESS)).length = 5 ∧
    fullRunThree.log.map LogEntry.status = [.INFO, .SUCCESS, .SUCCESS, .SUCCESS, .INFO] ∧
    ((fullRunThree.log.filter (fun e => e.status == .SUCCESS)).reverse.map
      (fun e => e.data.bind LogData.message)) = [some "A", some "B", some "A"] := by
  decide

/-- C7 counterexample: from the started one-recipient campaign, running to
completion after an immediate pause and resume yields a five-entry final log,
while never pausing yields a three-entry final log — the eventual log
sequences differ (by the pause and resume INFO entries). -/
theorem C7_counterexample :
    (runOps (executeStartCampaign (initialComponent cfg1) "t")
      [.pause "p", .resume "r", .fire 2 "t", .fire 3 "t"]).campaignStatus = .finished ∧
    (runOps (executeStartCampaign (initialComponent cfg1) "t")
      [.fire 1 "t", .fire 2 "t"]).campaignStatus = .finished ∧
    (runOps (executeStartCampaign (initialComponent cfg1) "t")
      [.pause "p", .resume "r", .fire 2 "t", .fire 3 "t"]).log.length = 5 ∧
    (runOps (executeStartCampaign (initialComponent cfg1) "t")
      [.fire 1 "t", .fire 2 "t"]).log.length = 3 := by
  decide

/-- C7 (amended): from any running state with the invariant timer shape,
pause() immediately followed by resume() restores the phase, status, position
and the pending timer's kind and full-duration delay exactly (only the timer
id is fresh), and changes the log only by prepending the "Campaign paused."
and "Campaign resumed." INFO entries — hence all subsequent campaign entries
are produced as if no pause had happened, while the full log additionally
contains those two entries. -/
theorem C7_pause_resume_roundtrip (s : AppComponent) (ts1 ts2 : String) (i : Nat) (d : Int)
    (hst : s.campaignStatus = .running)
    (hcase :
      (s.appState = .WaitingForNext ∧
        s.pending = [⟨i, .nextFire s.currentNumberIndex, d⟩] ∧ s.timerRef = some i ∧
        s.currentNumberIndex < s.config.numbers.length ∧
        d = (if s.currentNumberIndex == 0 then 0 else s.config.delayBetween * 1000)) ∨
      (s.appState = .WaitingForSend ∧
        s.pending = [⟨i, .sendFire s.currentNumberIndex, d⟩] ∧ s.actionTimerRef = some i ∧
        d = s.config.sendActionDelay * 1000)) :
    (handleResumeCampaign (handlePauseCampaign s ts1) ts2).appState = s.appState ∧
    (handleResumeCampaign (handlePauseCampaign s ts1) ts2).campaignStatus = s.campaignStatus ∧
    (handleResumeCampaign (handlePauseCampaign s ts1) ts2).currentNumberIndex = s.currentNumberIndex ∧
    (handleResumeCampaign (handlePauseCampaign s ts1) ts2).pending.map Timer.kind =
      s.pending.map Timer.kind ∧
    (handleResumeCampaign (handlePauseCampaign s ts1) ts2).pending.map Timer.delay =
      s.pending.map Timer.delay ∧
    (handleResumeCampaign (handlePauseCampaign s ts1) ts2).log =
      resumedLogEntry ts2 :: pausedLogEntry ts1 :: s.log ∧
    (handleResumeCampaign (handlePauseCampaign s ts1) ts2).config = s.config := by
  rcases hcase with ⟨hph, hp, hr, hlt, hd⟩ | ⟨hph, hp, hr, hd⟩
  · have hpend0 : removeTimer (removeTimer s.pending s.timerRef) s.actionTimerRef = [] := by
      rw [hp, hr]
      exact removeTimer_singleton_inner _ _
    unfold handleResumeCampaign
    rw [if_pos (by simp [handlePauseCampaign, addLog, clearTimers, hph])]
    unfold processNextNumber
    rw [if_neg (by simpa [handlePauseCampaign, addLog, clearTimers] using Nat.not_le.mpr hlt)]
    refine ⟨by simp [handlePauseCampaign, addLog, clearTimers, hph], ?_, ?_, ?_, ?_, ?_, ?_⟩
    · simp [handlePauseCampaign, addLog, clearTimers, hst]
    · simp [handlePauseCampaign, addLog, clearTimers]
    · conv_rhs => rw [hp]
      simp [handlePauseCampaign, addLog, clearTimers, hpend0]
    · conv_rhs => rw [hp]
      simp [handlePauseCampaign, addLog, clearTimers, hpend0, hd]
    · simp [handlePauseCampaign, addLog, clearTimers, pausedLogEntry, resumedLogEntry]
    · simp [handlePauseCampaign, addLog, clearTimers]
  · have hpend0 : removeTimer (removeTimer s.pending s.timerRef) s.actionTimerRef = [] := by
      rw [hp, hr]
      exact removeTimer_singleton_same _ _
    unfold handleResumeCampaign
    rw [if_neg (by simp [handlePauseCampaign, addLog, clearTimers, hph]),
        if_pos (by simp [handlePauseCampaign, addLog, clearTimers, hph])]
    unfold startSendAction
    refine ⟨by simp [handlePauseCampaign, addLog, clearTimers, hph], ?_, ?_, ?_, ?_, ?_, ?_⟩
    · simp [handlePauseCampaign, addLog, clearTimers, hst]
    · simp [handlePauseCampaign, addLog, clearTimers]
    · conv_rhs => rw [hp]
      simp [handlePauseCampaign, addLog, clearTimers, hpend0]
    · conv_rhs => rw [hp]
      simp [handlePauseCampaign, addLog, clearTimers, hpend0, hd]
    · simp [handlePauseCampaign, addLog, clearTimers, pausedLogEntry, resumedLogEntry]
    · simp [handlePauseCampaign, addLog, clearTimers]

/-- Witness instantiating the amended C7 at the freshly started one-recipient
campaign, whose next-delay timer (id 1, delay 0) is outstanding. -/
theorem C7_pause_resume_roundtrip_witness :
    (handleResumeCampaign
        (handlePauseCampaign (executeStartCampaign (initialComponent cfg1) "t") "p") "r").log =
      resumedLogEntry "r" :: pausedLogEntry "p" ::
        (executeStartCampaign (initialComponent cfg1) "t").log :=
  (C7_pause_resume_roundtrip (executeStartCampaign (initialComponent cfg1) "t") "p" "r" 1 0
    (by decide)
    (Or.inl ⟨by decide, by decide, by decide, by decide, by decide⟩)).2.2.2.2.2.1

/-- C8: validation rejects a start request — producing a non-empty field-keyed
error set and not opening the confirmation that leads to the running
transition — exactly when one of the spec's conditions holds: both templates
blank after trimming, recipient list empty or containing an entry failing the
phone pattern, a non-positive delay, or a monitor recipient present but
failing the phone pattern.  A config violating none of these passes. -/
theorem C8_validation_characterization :
    (∀ config : CampaignConfig, (validateConfig config ≠ [] ↔ specRejects config = true)) ∧
    (∀ s : AppComponent, validateConfig s.config ≠ [] →
      handleStartCampaign s = { s with errors := validateConfig s.config }) := by
  constructor
  · intro config
    have h := validateConfig_eq_nil_iff config
    constructor
    · intro hne
      cases hsr : specRejects config
      · exact absurd (h.mpr hsr) hne
      · rfl
    · intro htrue heq
      rw [h] at heq
      rw [heq] at htrue
      cases htrue
  · intro s h
    unfold handleStartCampaign
    rw [if_neg (by simpa [List.isEmpty_iff] using h)]

/-- Witness instantiating C8 at the configuration with an empty recipient
list: validation rejects it and the start handler only records the errors,
leaving the confirmation closed. -/
theorem C8_validation_characterization_witness :
    (validateConfig { cfg1 with numbers := [] } ≠ [] ↔
      specRejects { cfg1 with numbers := [] } = true) ∧
    handleStartCampaign (initialComponent { cfg1 with numbers := [] }) =
      { initialComponent { cfg1 with numbers := [] } with
        errors := validateConfig { cfg1 with numbers := [] } } :=
  ⟨C8_validation_characterization.1 { cfg1 with numbers := [] },
   C8_validation_characterization.2 (initialComponent { cfg1 with numbers := [] }) (by decide)⟩

/-- C9: updateDeliveryStatus(k, st) preserves the log length; leaves every
entry at an index other than k unchanged; is a no-op when index k is out of
range or the entry there carries no structured payload; and when the entry at
k does carry a payload, replaces it by the same entry with only the payload's
delivery-status field overwritten — timestamp, message, status tag and the
other payload fields are preserved. -/
theorem C9_update_frame (s : AppComponent) (k : Nat) (st : DeliveryStatus) :
    (handleUpdateDeliveryStatus s k st).log.length = s.log.length ∧
    (∀ j, j ≠ k → (handleUpdateDeliveryStatus s k st).log.get? j = s.log.get? j) ∧
    (s.log.get? k = none → (handleUpdateDeliveryStatus s k st).log = s.log) ∧
    (∀ e, s.log.get? k = some e → e.data = none →
      (handleUpdateDeliveryStatus s k st).log = s.log) ∧
    (∀ e d, s.log.get? k = some e → e.data = some d →
      (handleUpdateDeliveryStatus s k st).log.get? k =
        some { timestamp := e.timestamp, message := e.message, status := e.status,
               data := some { number := d.number, status := d.status, message := d.message,
                              file := d.file, deliveryStatus := some st } }) := by
  have hcase : (s.log.get? k = none ∧ (handleUpdateDeliveryStatus s k st).log = s.log) ∨
      (∃ e, s.log.get? k = some e ∧ e.data = none ∧
        (handleUpdateDeliveryStatus s k st).log = s.log) ∨
      (∃ e d, s.log.get? k = some e ∧ e.data = some d ∧
        (handleUpdateDeliveryStatus s k st).log =
          s.log.set k { timestamp := e.timestamp, message := e.message, status := e.status,
                        data := some { number := d.number, status := d.status,
                                       message := d.message, file := d.file,
                                       deliveryStatus := some st } }) := by
    cases hk : s.log.get? k with
    | none => exact Or.inl ⟨rfl, handleUpdate_log_of_none s k st hk⟩
    | some e =>
      cases hd : e.data with
      | none => exact Or.inr (Or.inl ⟨e, rfl, hd, handleUpdate_log_of_nodata s k st e hk hd⟩)
      | some d => exact Or.inr (Or.inr ⟨e, d, rfl, hd, handleUpdate_log_of_data s k st e d hk hd⟩)
  refine ⟨?_, ?_, ?_, ?_, ?_⟩
  · rcases hcase with ⟨hk, h⟩ | ⟨e, hk, hd, h⟩ | ⟨e, d, hk, hd, h⟩
    · rw [h]
    · rw [h]
    · rw [h]; simp
  · intro j hj
    rcases hcase with ⟨hk, h⟩ | ⟨e, hk, hd, h⟩ | ⟨e, d, hk, hd, h⟩
    · rw [h]
    · rw [h]
    · rw [h]; exact List.get?_set_ne _ s.log (Ne.symm hj)
  · intro hk2
    rcases hcase with ⟨hk, h⟩ | ⟨e, hk, hd, h⟩ | ⟨e, d, hk, hd, h⟩
    · exact h
    · exact h
    · rw [hk] at hk2; cases hk2
  · intro e2 hk2 hd2
    rcases hcase with ⟨hk, h⟩ | ⟨e, hk, hd, h⟩ | ⟨e, d, hk, hd, h⟩
    · exact h
    · exact h
    · rw [hk] at hk2
      injection hk2 with hk2
      rw [hk2] at hd
      rw [hd2] at hd
      cases hd
  · intro e2 d2 hk2 hd2
    rcases hcase with ⟨hk, h⟩ | ⟨e, hk, hd, h⟩ | ⟨e, d, hk, hd, h⟩
    · rw [hk] at hk2; cases hk2
    · rw [hk] at hk2
      injection hk2 with hk2
      rw [hk2] at hd
      rw [hd2] at hd
      cases hd
    · rw [hk] at hk2
      injection hk2 with hk2
      subst hk2
      rw [hd] at hd2
      injection hd2 with hd2
      subst hd2
      rw [h]
      have hlen : k < s.log.length := by
        rcases List.get?_eq_some.mp hk with ⟨hl, _⟩
        exact hl
      exact List.get?_set_eq_of_lt _ hlen

/-- Witness instantiating C9 on a concrete two-entry log: updating index 0
keeps the length, leaves index 1 untouched, and overwrites only the
delivery-status field of the payload at index 0. -/
theorem C9_update_frame_witness :
    (handleUpdateDeliveryStatus logSample 0 .Delivered).log.length = logSample.log.length ∧
    (handleUpdateDeliveryStatus logSample 0 .Delivered).log.get? 1 = logSample.log.get? 1 ∧
    (handleUpdateDeliveryStatus logSample 0 .Delivered).log.get? 0 =
      some { timestamp := "t1", message := "m1", status := .SUCCESS,
             data := some { number := some "111", status := some .SENT, message := some "A",
                            file := none, deliveryStatus := some .Delivered } } :=
  ⟨(C9_update_frame logSample 0 .Delivered).1,
   (C9_update_frame logSample 0 .Delivered).2.1 1 (by decide),
   (C9_update_frame logSample 0 .Delivered).2.2.2.2 _ _ rfl rfl⟩

/-- C10: the SKIPPED entry produced by skip() carries a structured payload
(the recipient and outcome SKIPPED, no delivery status), so a subsequent
updateDeliveryStatus aimed at its index — 0 right after the skip, or 1 when
the skip finished the campaign and the finish entry sits above it — is not a
no-op: it sets the payload's delivery-status field, exactly as for a SUCCESS
entry. -/
theorem C10_skip_entry_updatable (s : AppComponent) (ts : String) (st : DeliveryStatus) :
    (handleSkipNumber s ts).log.get?
        (if s.config.numbers.length ≤ s.currentNumberIndex + 1 then 1 else 0) =
      some (skipLogEntry s ts) ∧
    (skipLogEntry s ts).data = some (skippedData s) ∧
    (skippedData s).deliveryStatus = none ∧
    (handleUpdateDeliveryStatus (handleSkipNumber s ts)
        (if s.config.numbers.length ≤ s.currentNumberIndex + 1 then 1 else 0) st).log.get?
        (if s.config.numbers.length ≤ s.currentNumberIndex + 1 then 1 else 0) =
      some { skipLogEntry s ts with
             data := some { skippedData s with deliveryStatus := some st } } := by
  obtain ⟨hpos, hlog⟩ := handleSkipNumber_spec s ts
  by_cases h : s.config.numbers.length ≤ s.currentNumberIndex + 1
  · rw [if_pos h] at hlog
    rw [if_pos h]
    have hk : (handleSkipNumber s ts).log.get? 1 = some (skipLogEntry s ts) := by
      rw [hlog]; rfl
    refine ⟨hk, rfl, rfl, ?_⟩
    rw [handleUpdate_log_of_data _ 1 st _ _ hk rfl]
    rw [hlog]
    rfl
  · rw [if_neg h] at hlog
    rw [if_neg h]
    have hk : (handleSkipNumber s ts).log.get? 0 = some (skipLogEntry s ts) := by
      rw [hlog]; rfl
    refine ⟨hk, rfl, rfl, ?_⟩
    rw [handleUpdate_log_of_data _ 0 st _ _ hk rfl]
    rw [hlog]
    rfl
